import Mathlib

/-!
Verification of the PISCITEC aquarium-controller core (src/main.c, src/temperature.c,
src/lights.c, src/food.c) against its natural-language specification.

Floating-point sensor values are embedded as exact rationals; machine integers are
naturals with explicit wraparound where the C code relies on it (the uint32 echo
timestamps).  The single-threaded control loop of main.c is embedded as a step
function on an explicit state, processing one consumed event-bus flag at a time and
recording every side effect (pin writes, PWM levels, armed timers, status output)
as an explicit command.
-/

set_option maxHeartbeats 1000000

namespace Piscitec

/-! ### Constants from main.h, temperature.h, food.h -/

/-- WINDOW_SIZE from main.h: distance smoothing window capacity. -/
def WINDOW_SIZE : ℕ := 5

/-- TEMP_WINDOW_SIZE from temperature.h. -/
def TEMP_WINDOW_SIZE : ℕ := 10

/-- The literal capacity 10 of the static buffer in media_movil2 (lights.c). -/
def LIGHT_WINDOW_SIZE : ℕ := 10

/-- HOT_TEMPERATURE from temperature.h (26.0f). -/
def HOT_TEMPERATURE : ℚ := 26

/-- COLD_TEMPERATURE from temperature.h (25.0f). -/
def COLD_TEMPERATURE : ℚ := 25

/-- LED_TIMEOUT_MS from main.h: the fixed feeder-alarm delay. -/
def LED_TIMEOUT_MS : ℕ := 3000

/-- FOOD_OPEN from food.h. -/
def FOOD_OPEN : ℕ := 0

/-- FOOD_CLOSE from food.h. -/
def FOOD_CLOSE : ℕ := 1

/-- The uint32 modulus used by the echo timestamps (time_us_32). -/
def UINT32 : ℕ := 2 ^ 32

/-! ### Moving-average filter

The three C filters (moving_average in main.c, media_movil in temperature.c,
media_movil2 in lights.c) share the same algorithm on a static float array,
write cursor and saturating fill count; only the capacity differs. -/

/-- State of one moving-average filter: the backing array (list of fixed length),
the write cursor and the saturating fill count. -/
structure MAState where
  buf : List ℚ
  wpos : ℕ
  wcount : ℕ
deriving DecidableEq

/-- The zero-initialised static buffer of capacity N. -/
def maInit (N : ℕ) : MAState := ⟨List.replicate N 0, 0, 0⟩

/-- One push: window[wpos] = v; wpos = (wpos+1) % N; if (wcount < N) wcount++. -/
def maPush (N : ℕ) (s : MAState) (v : ℚ) : MAState :=
  { buf := s.buf.set s.wpos v
    wpos := (s.wpos + 1) % N
    wcount := if s.wcount < N then s.wcount + 1 else s.wcount }

/-- The C summation loop: for (i = 0; i < wcount; i++) sum += window[i]. -/
def maSum (s : MAState) : ℚ := (s.buf.take s.wcount).sum

/-- The value returned by each filter: sum / wcount. -/
def maAvg (s : MAState) : ℚ := maSum s / (s.wcount : ℚ)

/-- moving_average from main.c (distance pipeline, capacity WINDOW_SIZE = 5),
with the hidden static state made explicit. -/
def moving_average (s : MAState) (v : ℚ) : MAState × ℚ :=
  let t := maPush WINDOW_SIZE s v
  (t, maAvg t)

/-- media_movil from temperature.c (capacity TEMP_WINDOW_SIZE = 10). -/
def media_movil (s : MAState) (v : ℚ) : MAState × ℚ :=
  let t := maPush TEMP_WINDOW_SIZE s v
  (t, maAvg t)

/-- media_movil2 from lights.c (capacity 10). -/
def media_movil2 (s : MAState) (v : ℚ) : MAState × ℚ :=
  let t := maPush LIGHT_WINDOW_SIZE s v
  (t, maAvg t)

/-- Pushing a whole sample sequence through a filter. -/
def maRun (N : ℕ) (s : MAState) (xs : List ℚ) : MAState :=
  xs.foldl (maPush N) s

/-- The last min(length, N) pushed values (for length ≤ N the nat subtraction
is 0 and this is the whole list). -/
def lastWindow (N : ℕ) (xs : List ℚ) : List ℚ := xs.drop (xs.length - N)

/-! ### Temperature module (temperature.c) -/

/-- The hysteresis decision of temperature_control on the already-filtered
temperature: returns the new heater_on state and the GPIO write performed,
if any. -/
def temperature_step (heater_on : Bool) (temp : ℚ) : Bool × Option Bool :=
  if HOT_TEMPERATURE < temp then
    if heater_on then (false, some false) else (heater_on, none)
  else if temp < COLD_TEMPERATURE then
    if heater_on then (heater_on, none) else (true, some true)
  else (heater_on, none)

/-- Result of one temperature_control call. -/
structure TempOut where
  filter : MAState
  heater_on : Bool
  pin : Option Bool
  temp : ℚ
deriving DecidableEq

/-- temperature_control from temperature.c: filter the fresh reading through
media_movil, then apply the hysteresis band; returns the filtered value. -/
def temperature_control (s : MAState) (heater_on : Bool) (raw : ℚ) : TempOut :=
  let p := media_movil s raw
  { filter := p.1
    heater_on := (temperature_step heater_on p.2).1
    pin := (temperature_step heater_on p.2).2
    temp := p.2 }

/-! ### Lights module (lights.c) -/

/-- The stepped duty table of lights_control (code branches, not the stale
percentage comments). -/
def lights_duty_frac (level : ℕ) : ℚ :=
  if level < 500 then 1
  else if level < 600 then 8 / 10
  else if level < 800 then 5 / 10
  else if level < 1100 then 3 / 10
  else if level < 1600 then 1 / 10
  else 0

/-- Result of one lights_control call: the updated filter, the truncated
uint16 level fed to the table (and returned as lights_value), and the duty
fraction applied to the PWM top. -/
structure LightsOut where
  filter : MAState
  level : ℕ
  duty : ℚ
deriving DecidableEq

/-- lights_control from lights.c: smooth the raw ADC reading with media_movil2,
truncate the float average to a uint16 level, look up the duty tier. -/
def lights_control (s : MAState) (raw : ℚ) : LightsOut :=
  let p := media_movil2 s raw
  { filter := p.1
    level := (⌊p.2⌋).toNat
    duty := lights_duty_frac ((⌊p.2⌋).toNat) }

/-! ### Food module (food.c) -/

/-- angle_to_duty from food.c. -/
def angle_to_duty (angle fix : ℚ) : ℚ :=
  (1000 + (angle - fix) * 1000 / 93) / 20000

/-- The duty cycle food_control selects for a given case (fix = 35, ang = 20;
the default branch behaves like FOOD_CLOSE). -/
def food_control_duty (food_case : ℕ) : ℚ :=
  if food_case = FOOD_OPEN then angle_to_duty (140 - 20) 35
  else angle_to_duty 140 35

/-- The PWM compare level food_control writes: top * duty_cycle. -/
def food_control_level (top : ℚ) (food_case : ℕ) : ℚ :=
  top * food_control_duty food_case

/-! ### The control loop of main.c

Flags are set by interrupt/timer contexts and consumed by the while(1) loop;
we embed the loop as a step function consuming one flag per step.  Every side
effect the loop performs (GPIO writes, PWM levels, armed alarms, the printf
status line and the OLED render) is recorded as a command. -/

/-- One consumed event-bus flag, carrying the data the interrupt recorded or
the fresh sensor readings the periodic branch will pull. -/
inductive Event where
  /-- flag_alarm == 1 (come_back_irq1 fired). -/
  | alarm1 : Event
  /-- flag_alarm == 2 (come_back_irq2 fired). -/
  | alarm2 : Event
  /-- flag_low_food == 1 (rising edge on LOW_FOOD_PIN). -/
  | lowFoodRise : Event
  /-- flag_low_food == 2 (falling edge on LOW_FOOD_PIN). -/
  | lowFoodFall : Event
  /-- flag_periodic (500 ms repeating timer); carries the fresh temperature
  reading (output of read_temperature) and the raw light ADC reading. -/
  | periodic (rawTemp rawLight : ℚ) : Event
  /-- flag_trigger (200 ms repeating timer). -/
  | trigger : Event
  /-- flag_echo with rise_echo; t is the value time_us_32 returns in the loop. -/
  | echoRise (t : ℕ) : Event
  /-- flag_echo with fall_echo; t is the value time_us_32 returns in the loop. -/
  | echoFall (t : ℕ) : Event
  /-- flag_vibration (rising edge on VIBRATION_PIN). -/
  | vibration : Event
deriving DecidableEq

/-- A side effect of the loop body. -/
inductive Cmd where
  /-- food_control(SERVO1_PIN, food_case, top). -/
  | foodCmd (food_case : ℕ) : Cmd
  /-- add_alarm_in_ms(ms, come_back_irqN): which = N. -/
  | armAlarm (which : ℕ) (ms : ℕ) : Cmd
  /-- gpio_put(LED_PIN, b). -/
  | led (b : Bool) : Cmd
  /-- gpio_put(HEATER_PIN, b), performed inside temperature_control. -/
  | heaterPin (b : Bool) : Cmd
  /-- pwm_set_gpio_level(LIGHT_PIN, top_lights * frac), recorded by fraction. -/
  | lightPwm (frac : ℚ) : Cmd
  /-- The printf status line: " %.2f %.2f %.2f %d %d" fields in order. -/
  | statusLine (temp light dist : ℚ) (ir vib : ℕ) : Cmd
  /-- oled_update_display fields in order (light already scaled to lux). -/
  | display (temp light dist : ℚ) (ir vib : ℕ) : Cmd
  /-- gpio_put(BUZZER_PIN, b). -/
  | buzzer (b : Bool) : Cmd
  /-- add_alarm_in_ms(ms, apagar_buzzer): the one-shot that drives the buzzer
  low again. -/
  | armBuzzerOff (ms : ℕ) : Cmd
  /-- trigger_pulse(). -/
  | triggerPulse : Cmd
deriving DecidableEq

/-- The global variables of main.c the loop reads and writes. -/
structure LoopState where
  Temp : ℚ
  lights_value : ℚ
  distance : ℚ
  ir_value : ℕ
  vibration_value : ℕ
  vibration_count : ℕ
  trigger_ready : Bool
  echo_start : ℕ
  echo_end : ℕ
  heater_on : Bool
  tempFilter : MAState
  lightFilter : MAState
  distFilter : MAState
deriving DecidableEq

/-- The initial values of the globals after the init code of main(). -/
def initState : LoopState :=
  { Temp := 0
    lights_value := 0
    distance := 0
    ir_value := 0
    vibration_value := 0
    vibration_count := 0
    trigger_ready := true
    echo_start := 0
    echo_end := 0
    heater_on := false
    tempFilter := maInit TEMP_WINDOW_SIZE
    lightFilter := maInit LIGHT_WINDOW_SIZE
    distFilter := maInit WINDOW_SIZE }

/-- One iteration branch of the while(1) loop of main(), consuming one flag. -/
def step (s : LoopState) : Event → LoopState × List Cmd
  | .alarm1 =>
      (s, [.foodCmd FOOD_OPEN, .armAlarm 2 LED_TIMEOUT_MS])
  | .alarm2 =>
      (s, [.foodCmd FOOD_CLOSE, .armAlarm 1 LED_TIMEOUT_MS])
  | .lowFoodRise =>
      ({ s with ir_value := 1 }, [.led true])
  | .lowFoodFall =>
      ({ s with ir_value := 0 }, [.led false])
  | .periodic rawTemp rawLight =>
      let tc := temperature_control s.tempFilter s.heater_on rawTemp
      let lc := lights_control s.lightFilter rawLight
      let lights_value' : ℚ := (lc.level : ℚ)
      let lux : ℚ := lights_value' * (122 / 1000)
      let vv : ℕ := if 0 < s.vibration_count ∧ s.vibration_count ≤ 1 then 1 else 0
      let vcount' : ℕ :=
        if 0 < s.vibration_count ∧ s.vibration_count ≤ 1 then
          s.vibration_count + 1
        else s.vibration_count
      let heaterCmds : List Cmd :=
        match tc.pin with
        | some b => [.heaterPin b]
        | none => []
      ({ s with Temp := tc.temp
                lights_value := lights_value'
                tempFilter := tc.filter
                lightFilter := lc.filter
                heater_on := tc.heater_on
                vibration_count := vcount'
                vibration_value := vv },
       heaterCmds ++ [.lightPwm lc.duty]
         ++ [.statusLine tc.temp lights_value' s.distance s.ir_value s.vibration_value]
         ++ (if vv = 1 then [Cmd.buzzer true, Cmd.armBuzzerOff 500] else [])
         ++ [.display tc.temp lux s.distance s.ir_value vv])
  | .trigger =>
      if s.trigger_ready then
        ({ s with trigger_ready := false }, [.triggerPulse])
      else (s, [])
  | .echoRise t =>
      ({ s with echo_start := t % UINT32 }, [])
  | .echoFall t =>
      let te := t % UINT32
      let duracion : ℕ := (te + UINT32 - s.echo_start) % UINT32
      let distancia : ℚ := (duracion : ℚ) / 58
      if 0 < distancia ∧ distancia < 400 then
        let p := moving_average s.distFilter distancia
        ({ s with echo_end := te
                  distFilter := p.1
                  distance := p.2
                  trigger_ready := true }, [])
      else
        ({ s with echo_end := te, trigger_ready := true }, [])
  | .vibration =>
      ({ s with vibration_count := 1 }, [])

/-- The effect of the apagar_buzzer alarm callback once it fires. -/
def apagar_buzzer : List Cmd := [Cmd.buzzer false]

/-- Consuming a sequence of flags, concatenating the emitted commands. -/
def run (s : LoopState) : List Event → LoopState × List Cmd
  | [] => (s, [])
  | e :: es =>
      let p := step s e
      let q := run p.1 es
      (q.1, p.2 ++ q.2)

/-! ### Command and event classifiers -/

/-- Is this command an invocation of food_control? -/
def isFoodCmd : Cmd → Bool
  | .foodCmd _ => true
  | _ => false

/-- Is this command the arming of a feeder alarm (come_back_irq1/2)? -/
def isArmAlarm : Cmd → Bool
  | .armAlarm _ _ => true
  | _ => false

/-- Is this command the printf status line? -/
def isStatusLine : Cmd → Bool
  | .statusLine _ _ _ _ _ => true
  | _ => false

/-- Is this command the OLED render? -/
def isDisplay : Cmd → Bool
  | .display _ _ _ _ _ => true
  | _ => false

/-- Does this command drive the buzzer pin high? -/
def isBuzzerOn : Cmd → Bool
  | .buzzer b => b
  | _ => false

/-- Is this command the arming of the 500 ms apagar_buzzer one-shot? -/
def isArmBuzzerOff500 : Cmd → Bool
  | .armBuzzerOff ms => ms == 500
  | _ => false

/-- Is this a consumed vibration-edge flag? -/
def isVibrationEvent : Event → Bool
  | .vibration => true
  | _ => false

/-- Is this a consumed periodic-tick flag? -/
def isPeriodicEvent : Event → Bool
  | .periodic _ _ => true
  | _ => false

/-- The vibration fields of the display renders, in emission order. -/
def displayVibs : List Cmd → List ℕ
  | [] => []
  | Cmd.display _ _ _ _ v :: cs => v :: displayVibs cs
  | _ :: cs => displayVibs cs

/-- Number of buzzer-high writes in a command sequence. -/
def buzzerOnCount (cs : List Cmd) : ℕ := (cs.filter isBuzzerOn).length

/-- Number of armed apagar_buzzer one-shots in a command sequence. -/
def armBuzzerOffCount (cs : List Cmd) : ℕ := (cs.filter isArmBuzzerOff500).length

/-- Number of periodic ticks in an event sequence. -/
def numTicks (es : List Event) : ℕ := (es.filter isPeriodicEvent).length

/-- The feeder commands each event actually produces (the amended claim C2):
only the two alarm-chain callbacks yield one. -/
def expectedFoodCmds : Event → List Cmd
  | .alarm1 => [.foodCmd FOOD_OPEN]
  | .alarm2 => [.foodCmd FOOD_CLOSE]
  | _ => []

/-- The feeder alarms each event arms (the amended claim C2): the open alarm
arms the close timer and vice versa, with the fixed 3000 ms delay. -/
def expectedArmAlarms : Event → List Cmd
  | .alarm1 => [.armAlarm 2 LED_TIMEOUT_MS]
  | .alarm2 => [.armAlarm 1 LED_TIMEOUT_MS]
  | _ => []

/-! ### Theorems -/

/-- Claim C5: temperature_control turns the heater off exactly when the
filtered temperature exceeds 26.0 with the heater on, turns it on exactly when
it is below 25.0 with the heater off, and leaves the heater state and the
output pin untouched in the dead band [25.0, 26.0]; the filtered sequence
24, 25.5, 26.5 starting from off yields the states on, on, off. -/
theorem temperature_hysteresis (t : ℚ) (h : Bool) :
    (temperature_step h t = (false, some false) ↔ HOT_TEMPERATURE < t ∧ h = true) ∧
    (temperature_step h t = (true, some true) ↔ t < COLD_TEMPERATURE ∧ h = false) ∧
    (COLD_TEMPERATURE ≤ t → t ≤ HOT_TEMPERATURE → temperature_step h t = (h, none)) ∧
    temperature_step false 24 = (true, some true) ∧
    temperature_step true 25.5 = (true, none) ∧
    temperature_step true 26.5 = (false, some false) := by
  refine ⟨?_, ?_, ?_,
    by norm_num [temperature_step, HOT_TEMPERATURE, COLD_TEMPERATURE],
    by norm_num [temperature_step, HOT_TEMPERATURE, COLD_TEMPERATURE],
    by norm_num [temperature_step, HOT_TEMPERATURE, COLD_TEMPERATURE]⟩
  · unfold temperature_step HOT_TEMPERATURE COLD_TEMPERATURE
    cases h <;> split_ifs <;> simp_all
  · unfold temperature_step HOT_TEMPERATURE COLD_TEMPERATURE
    cases h <;> split_ifs <;> simp_all
    linarith
  · intro h1 h2
    unfold temperature_step HOT_TEMPERATURE COLD_TEMPERATURE at *
    split_ifs <;> first
      | rfl
      | (exfalso; linarith)

/-- Witness for C5: the dead-band case at t = 25.5 with the heater on. -/
theorem temperature_hysteresis_witness :
    temperature_step true 25.5 = (true, none) :=
  (temperature_hysteresis 25.5 true).2.2.1 (by norm_num [COLD_TEMPERATURE])
    (by norm_num [HOT_TEMPERATURE])

/-- Claim C6: the light dimmer maps the smoothed level through the stepped
table v<500 to 100%, v<600 to 80%, v<800 to 50%, v<1100 to 30%, v<1600 to 10%,
otherwise 0%, with every comparison strict, so the boundary value 500 falls in
the 80% tier, not the 100% one. -/
theorem lights_table (v : ℕ) :
    (v < 500 → lights_duty_frac v = 1) ∧
    (500 ≤ v → v < 600 → lights_duty_frac v = 8 / 10) ∧
    (600 ≤ v → v < 800 → lights_duty_frac v = 5 / 10) ∧
    (800 ≤ v → v < 1100 → lights_duty_frac v = 3 / 10) ∧
    (1100 ≤ v → v < 1600 → lights_duty_frac v = 1 / 10) ∧
    (1600 ≤ v → lights_duty_frac v = 0) ∧
    lights_duty_frac 500 = 8 / 10 ∧ ((8 : ℚ) / 10 ≠ 1) := by
  refine ⟨?_, ?_, ?_, ?_, ?_, ?_, by norm_num [lights_duty_frac], by norm_num⟩ <;>
    (intros; unfold lights_duty_frac; split_ifs <;> first | rfl | omega)

/-- Witness for C6: the boundary input 500 lands in the 80% tier. -/
theorem lights_table_witness :
    lights_duty_frac 500 = 8 / 10 :=
  (lights_table 500).2.1 (by norm_num) (by norm_num)

/-- Claim C7: for both feeder commands the servo duty cycle follows the fixed
linear map duty = (1000 + (angle - 35) * 1000/93) / 20000 with angle = 140 for
Close and 140 - 20 = 120 for Open, and the written PWM compare level is top
times that duty; the two duties in closed form are 33/310 and 89/930. -/
theorem servo_duty_map (top : ℚ) :
    food_control_level top FOOD_CLOSE
      = top * ((1000 + ((140 : ℚ) - 35) * 1000 / 93) / 20000) ∧
    food_control_level top FOOD_OPEN
      = top * ((1000 + (((140 : ℚ) - 20) - 35) * 1000 / 93) / 20000) ∧
    angle_to_duty 140 35 = 33 / 310 ∧
    angle_to_duty (140 - 20) 35 = 89 / 930 := by
  refine ⟨?_, ?_, by norm_num [angle_to_duty], by norm_num [angle_to_duty]⟩ <;>
    norm_num [food_control_level, food_control_duty, angle_to_duty,
      FOOD_OPEN, FOOD_CLOSE]

/-- Claim C9: every push into any of the three smoothing filters leaves the
fill count, which is the divisor of the returned average, at least 1, so no
filter ever divides by zero; the returned value is indeed the window sum
divided by that fill count. -/
theorem filters_no_div_by_zero (s : MAState) (v : ℚ) :
    1 ≤ (moving_average s v).1.wcount ∧
    1 ≤ (media_movil s v).1.wcount ∧
    1 ≤ (media_movil2 s v).1.wcount ∧
    (moving_average s v).2
      = maSum (moving_average s v).1 / (((moving_average s v).1.wcount : ℕ) : ℚ) := by
  refine ⟨?_, ?_, ?_, rfl⟩ <;>
    · simp only [moving_average, media_movil, media_movil2, maPush,
        WINDOW_SIZE, TEMP_WINDOW_SIZE, LIGHT_WINDOW_SIZE]
      split_ifs <;> omega

/-- Counterexample to claim C2 as stated: consuming a low-food rising edge
emits only the LED write; it produces no feeder Open command at all.  The
feeder is driven by the free-running alarm chain instead. -/
theorem low_food_rise_no_feeder_cmd :
    (step initState Event.lowFoodRise).2 = [Cmd.led true] ∧
    Cmd.foodCmd FOOD_OPEN ∉ (step initState Event.lowFoodRise).2 := by
  refine ⟨rfl, ?_⟩
  decide

/-- Claim C2 (amended): a low-food rising edge produces no feeder command;
feeder Open and Close commands come only from the two-phase 3000 ms alarm
chain, each alarm event emitting exactly one feeder command and arming exactly
one alarm for the opposite phase, so the commands alternate with a single
pending feeder timer. -/
theorem feeder_cmds_from_alarm_chain (s : LoopState) (e : Event) :
    (step s e).2.filter isFoodCmd = expectedFoodCmds e ∧
    (step s e).2.filter isArmAlarm = expectedArmAlarms e := by
  cases e with
  | alarm1 => exact ⟨rfl, rfl⟩
  | alarm2 => exact ⟨rfl, rfl⟩
  | lowFoodRise => exact ⟨rfl, rfl⟩
  | lowFoodFall => exact ⟨rfl, rfl⟩
  | vibration => exact ⟨rfl, rfl⟩
  | echoRise t => exact ⟨rfl, rfl⟩
  | trigger =>
      cases h : s.trigger_ready <;>
        simp [step, h, expectedFoodCmds, expectedArmAlarms, isFoodCmd, isArmAlarm]
  | echoFall t =>
      simp only [step]
      split_ifs <;> simp [expectedFoodCmds, expectedArmAlarms]
  | periodic rawT rawL =>
      constructor <;>
        · simp only [step, List.filter_append]
          cases (temperature_control s.tempFilter s.heater_on rawT).pin <;>
            split_ifs <;>
            simp [expectedFoodCmds, expectedArmAlarms, isFoodCmd, isArmAlarm]

/-- Claim C3: trigger_pulse is invoked only from a state with trigger_ready
true, the invocation itself clears trigger_ready, and trigger_ready can go
from false back to true only by consuming a fall-edge echo flag, so ranging
cycles never overlap. -/
theorem trigger_guarded (s : LoopState) (e : Event) :
    (Cmd.triggerPulse ∈ (step s e).2 →
      s.trigger_ready = true ∧ (step s e).1.trigger_ready = false) ∧
    (s.trigger_ready = false → (step s e).1.trigger_ready = true →
      ∃ t, e = Event.echoFall t) := by
  cases e with
  | alarm1 =>
      exact ⟨fun hmem => by simp [step] at hmem,
             fun h1 h2 => by simp [step, h1] at h2⟩
  | alarm2 =>
      exact ⟨fun hmem => by simp [step] at hmem,
             fun h1 h2 => by simp [step, h1] at h2⟩
  | lowFoodRise =>
      exact ⟨fun hmem => by simp [step] at hmem,
             fun h1 h2 => by simp [step, h1] at h2⟩
  | lowFoodFall =>
      exact ⟨fun hmem => by simp [step] at hmem,
             fun h1 h2 => by simp [step, h1] at h2⟩
  | vibration =>
      exact ⟨fun hmem => by simp [step] at hmem,
             fun h1 h2 => by simp [step, h1] at h2⟩
  | echoRise t =>
      exact ⟨fun hmem => by simp [step] at hmem,
             fun h1 h2 => by simp [step, h1] at h2⟩
  | echoFall t =>
      refine ⟨fun hmem => ?_, fun _ _ => ⟨t, rfl⟩⟩
      exfalso
      revert hmem
      simp only [step]
      split_ifs <;> simp
  | trigger =>
      cases h : s.trigger_ready <;> simp [step, h]
  | periodic rawT rawL =>
      constructor
      · intro hmem
        exfalso
        revert hmem
        simp only [step, List.mem_append]
        cases (temperature_control s.tempFilter s.heater_on rawT).pin <;>
          split_ifs <;> simp
      · intro h1 h2
        simp [step, h1] at h2

/-- Witness for C3: from the initial state (trigger_ready true) a trigger
event fires the pulse and clears the flag; from a not-ready state a fall echo
is the event that restores readiness. -/
theorem trigger_guarded_witness :
    (initState.trigger_ready = true ∧
      (step initState Event.trigger).1.trigger_ready = false) ∧
    (∃ t, (Event.echoFall 7 : Event) = Event.echoFall t) :=
  ⟨(trigger_guarded initState Event.trigger).1 (by decide),
   (trigger_guarded { initState with trigger_ready := false }
      (Event.echoFall 7)).2 rfl (by simp only [step]; split_ifs <;> rfl)⟩

/-- Claim C1: consuming a fall-edge echo flag with recorded rise timestamp a
and fall timestamp b computes distance (b - a)/58 cm; the distance smoothing
window and the reported distance are updated through moving_average exactly
when 0 < distance < 400 and are left untouched otherwise, while trigger_ready
becomes true in either case. -/
theorem echo_fall_ranging (s : LoopState) (a b : ℕ) (ha : s.echo_start = a)
    (hab : a ≤ b) (hb : b < UINT32) :
    (step s (Event.echoFall b)).1.trigger_ready = true ∧
    (0 < ((b - a : ℕ) : ℚ) / 58 ∧ ((b - a : ℕ) : ℚ) / 58 < 400 →
      (step s (Event.echoFall b)).1.distFilter
          = (moving_average s.distFilter (((b - a : ℕ) : ℚ) / 58)).1 ∧
      (step s (Event.echoFall b)).1.distance
          = (moving_average s.distFilter (((b - a : ℕ) : ℚ) / 58)).2) ∧
    (¬ (0 < ((b - a : ℕ) : ℚ) / 58 ∧ ((b - a : ℕ) : ℚ) / 58 < 400) →
      (step s (Event.echoFall b)).1.distFilter = s.distFilter ∧
      (step s (Event.echoFall b)).1.distance = s.distance) := by
  have hmod : b % UINT32 = b := Nat.mod_eq_of_lt hb
  have hdur : (b + UINT32 - s.echo_start) % UINT32 = b - a := by
    rw [ha, Nat.sub_add_comm hab, Nat.add_mod_right]
    exact Nat.mod_eq_of_lt (lt_of_le_of_lt (Nat.sub_le b a) hb)
  simp only [step, hmod, hdur]
  split_ifs with h
  · exact ⟨rfl, fun _ => ⟨rfl, rfl⟩, fun hc => absurd h hc⟩
  · exact ⟨rfl, fun hc => absurd hc h, fun _ => ⟨rfl, rfl⟩⟩

/-- Witness for C1, at the spec's own example: rise at 1000 µs, fall at
1350 µs; the cycle returns to ready. -/
theorem echo_fall_ranging_witness :
    (1000 : ℕ) ≤ 1350 ∧ 1350 < UINT32 ∧
    (step { initState with echo_start := 1000 }
        (Event.echoFall 1350)).1.trigger_ready = true :=
  ⟨by norm_num, by norm_num [UINT32],
   (echo_fall_ranging { initState with echo_start := 1000 } 1000 1350 rfl
      (by norm_num) (by norm_num [UINT32])).1⟩

/-- Counterexample to claim C8 as stated: on a periodic tick with smoothed
light reading 1000, the printf status line carries the raw value 1000 in its
light field while the display gets the lux value 1000 * 0.122 = 122, so the
status line does not receive the derived-lux field the claim asserts for both
sinks. -/
theorem status_line_not_lux :
    (step initState (Event.periodic 24 1000)).2.filter isStatusLine
        = [Cmd.statusLine 24 1000 0 0 0] ∧
    (step initState (Event.periodic 24 1000)).2.filter isDisplay
        = [Cmd.display 24 122 0 0 0] ∧
    (1000 : ℚ) ≠ 1000 * (122 / 1000) := by
  have hsumL : maSum (maPush LIGHT_WINDOW_SIZE (maInit LIGHT_WINDOW_SIZE) 1000) = 1000 := by
    norm_num [maSum, maPush, maInit, LIGHT_WINDOW_SIZE, List.replicate_succ]
  have hcntL : (maPush LIGHT_WINDOW_SIZE (maInit LIGHT_WINDOW_SIZE) 1000).wcount = 1 := by
    norm_num [maPush, maInit, LIGHT_WINDOW_SIZE]
  have hsumT : maSum (maPush TEMP_WINDOW_SIZE (maInit TEMP_WINDOW_SIZE) 24) = 24 := by
    norm_num [maSum, maPush, maInit, TEMP_WINDOW_SIZE, List.replicate_succ]
  have hcntT : (maPush TEMP_WINDOW_SIZE (maInit TEMP_WINDOW_SIZE) 24).wcount = 1 := by
    norm_num [maPush, maInit, TEMP_WINDOW_SIZE]
  have havgL : (media_movil2 initState.lightFilter 1000).2 = 1000 := by
    show maAvg (maPush LIGHT_WINDOW_SIZE (maInit LIGHT_WINDOW_SIZE) 1000) = 1000
    rw [maAvg, hsumL, hcntL]
    norm_num
  have havgT : (media_movil initState.tempFilter 24).2 = 24 := by
    show maAvg (maPush TEMP_WINDOW_SIZE (maInit TEMP_WINDOW_SIZE) 24) = 24
    rw [maAvg, hsumT, hcntT]
    norm_num
  have hfl : (⌊(1000 : ℚ)⌋).toNat = 1000 := by decide
  have hlc : lights_control initState.lightFilter 1000
      = { filter := (media_movil2 initState.lightFilter 1000).1,
          level := 1000, duty := 3 / 10 } := by
    simp only [lights_control, havgL, hfl, LightsOut.mk.injEq, lights_duty_frac]
    norm_num
  have hh : initState.heater_on = false := rfl
  have htc : temperature_control initState.tempFilter initState.heater_on 24
      = { filter := (media_movil initState.tempFilter 24).1,
          heater_on := true, pin := some true, temp := 24 } := by
    simp only [temperature_control, havgT, hh, TempOut.mk.injEq]
    norm_num [temperature_step, HOT_TEMPERATURE, COLD_TEMPERATURE]
  have hvc : initState.vibration_count = 0 := rfl
  refine ⟨?_, ?_, by norm_num⟩ <;>
    · simp only [step, List.filter_append, hlc, htc, hvc]
      norm_num [isStatusLine, isDisplay, initState]

/-- Claim C8 (amended): every periodic tick emits exactly one five-field
status line and exactly one five-field display render, both ordered
temperature, light, distance, IR, vibration and agreeing on temperature,
distance and IR; the display's light field is the derived lux value (smoothed
truncated reading times 0.122) while the status line's light field is the raw
smoothed reading, and the status line shows the vibration value from before
this tick's update while the display shows the updated one. -/
theorem periodic_status_outputs (s : LoopState) (rawT rawL : ℚ) :
    (step s (Event.periodic rawT rawL)).2.filter isStatusLine
      = [Cmd.statusLine (temperature_control s.tempFilter s.heater_on rawT).temp
          ((lights_control s.lightFilter rawL).level : ℚ)
          s.distance s.ir_value s.vibration_value] ∧
    (step s (Event.periodic rawT rawL)).2.filter isDisplay
      = [Cmd.display (temperature_control s.tempFilter s.heater_on rawT).temp
          (((lights_control s.lightFilter rawL).level : ℚ) * (122 / 1000))
          s.distance s.ir_value
          (if 0 < s.vibration_count ∧ s.vibration_count ≤ 1 then 1 else 0)] := by
  constructor <;>
    · simp only [step, List.filter_append]
      cases (temperature_control s.tempFilter s.heater_on rawT).pin <;>
        split_ifs <;>
        simp [isStatusLine, isDisplay]

/-! ### Helper lemmas for the vibration trace property (C10) -/

lemma displayVibs_append (xs ys : List Cmd) :
    displayVibs (xs ++ ys) = displayVibs xs ++ displayVibs ys := by
  induction xs with
  | nil => rfl
  | cons c cs ih => cases c <;> simp [displayVibs, ih]

lemma buzzerOnCount_append (xs ys : List Cmd) :
    buzzerOnCount (xs ++ ys) = buzzerOnCount xs + buzzerOnCount ys := by
  simp [buzzerOnCount, List.filter_append]

lemma armBuzzerOffCount_append (xs ys : List Cmd) :
    armBuzzerOffCount (xs ++ ys) = armBuzzerOffCount xs + armBuzzerOffCount ys := by
  simp [armBuzzerOffCount, List.filter_append]

lemma event_shape (e : Event) :
    (∃ rT rL, e = Event.periodic rT rL) ∨ isPeriodicEvent e = false := by
  cases e <;> simp [isPeriodicEvent]

lemma step_nonperiodic_vibration (s : LoopState) (e : Event)
    (hv : isVibrationEvent e = false) (hp : isPeriodicEvent e = false) :
    (step s e).1.vibration_count = s.vibration_count ∧
    displayVibs (step s e).2 = [] ∧
    buzzerOnCount (step s e).2 = 0 ∧
    armBuzzerOffCount (step s e).2 = 0 := by
  cases e with
  | vibration => simp [isVibrationEvent] at hv
  | periodic rT rL => simp [isPeriodicEvent] at hp
  | trigger =>
      cases h : s.trigger_ready <;>
        simp [step, h, displayVibs, buzzerOnCount, armBuzzerOffCount,
          isBuzzerOn, isArmBuzzerOff500]
  | echoFall t =>
      simp only [step]
      split_ifs <;>
        simp [displayVibs, buzzerOnCount, armBuzzerOffCount]
  | alarm1 =>
      simp [step, displayVibs, buzzerOnCount, armBuzzerOffCount,
        isBuzzerOn, isArmBuzzerOff500]
  | alarm2 =>
      simp [step, displayVibs, buzzerOnCount, armBuzzerOffCount,
        isBuzzerOn, isArmBuzzerOff500]
  | lowFoodRise =>
      simp [step, displayVibs, buzzerOnCount, armBuzzerOffCount,
        isBuzzerOn, isArmBuzzerOff500]
  | lowFoodFall =>
      simp [step, displayVibs, buzzerOnCount, armBuzzerOffCount,
        isBuzzerOn, isArmBuzzerOff500]
  | echoRise t =>
      simp [step, displayVibs, buzzerOnCount, armBuzzerOffCount]

lemma step_periodic_of_count (s : LoopState) (rT rL : ℚ) (n : ℕ)
    (h : s.vibration_count = n) (hn : ¬ (0 < n ∧ n ≤ 1)) :
    (step s (Event.periodic rT rL)).1.vibration_count = n ∧
    displayVibs (step s (Event.periodic rT rL)).2 = [0] ∧
    buzzerOnCount (step s (Event.periodic rT rL)).2 = 0 ∧
    armBuzzerOffCount (step s (Event.periodic rT rL)).2 = 0 := by
  simp only [step, h, if_neg hn]
  cases (temperature_control s.tempFilter s.heater_on rT).pin <;>
    simp [displayVibs, buzzerOnCount, armBuzzerOffCount,
      isBuzzerOn, isArmBuzzerOff500, displayVibs_append,
      buzzerOnCount_append, armBuzzerOffCount_append]

lemma step_periodic_count1 (s : LoopState) (rT rL : ℚ)
    (h : s.vibration_count = 1) :
    (step s (Event.periodic rT rL)).1.vibration_count = 2 ∧
    displayVibs (step s (Event.periodic rT rL)).2 = [1] ∧
    buzzerOnCount (step s (Event.periodic rT rL)).2 = 1 ∧
    armBuzzerOffCount (step s (Event.periodic rT rL)).2 = 1 := by
  have hc : (0 < (1:ℕ) ∧ (1:ℕ) ≤ 1) := by norm_num
  simp only [step, h, if_pos hc]
  cases (temperature_control s.tempFilter s.heater_on rT).pin <;>
    simp [displayVibs, buzzerOnCount, armBuzzerOffCount,
      isBuzzerOn, isArmBuzzerOff500, displayVibs_append,
      buzzerOnCount_append, armBuzzerOffCount_append]

lemma numTicks_cons_periodic (rT rL : ℚ) (es : List Event) :
    numTicks (Event.periodic rT rL :: es) = numTicks es + 1 := by
  simp [numTicks, isPeriodicEvent]

lemma numTicks_cons_other (e : Event) (es : List Event)
    (hp : isPeriodicEvent e = false) :
    numTicks (e :: es) = numTicks es := by
  simp [numTicks, hp]

lemma run_count2 (es : List Event) (s : LoopState)
    (h : s.vibration_count = 2)
    (hes : ∀ e ∈ es, isVibrationEvent e = false) :
    (run s es).1.vibration_count = 2 ∧
    displayVibs (run s es).2 = List.replicate (numTicks es) 0 ∧
    buzzerOnCount (run s es).2 = 0 ∧
    armBuzzerOffCount (run s es).2 = 0 := by
  induction es generalizing s with
  | nil =>
      simp [run, displayVibs, buzzerOnCount, armBuzzerOffCount, numTicks, h]
  | cons e es ih =>
      have he : isVibrationEvent e = false := hes e (List.mem_cons_self e es)
      have hes' : ∀ e' ∈ es, isVibrationEvent e' = false :=
        fun e' h' => hes e' (List.mem_cons_of_mem e h')
      simp only [run, displayVibs_append, buzzerOnCount_append,
        armBuzzerOffCount_append]
      rcases event_shape e with ⟨rT, rL, rfl⟩ | hp
      · have h2 := step_periodic_of_count s rT rL 2 h (by norm_num)
        have ihr := ih (step s (Event.periodic rT rL)).1 h2.1 hes'
        refine ⟨ihr.1, ?_, ?_, ?_⟩
        · rw [h2.2.1, ihr.2.1, numTicks_cons_periodic]
          simp [List.replicate_succ]
        · rw [h2.2.2.1, ihr.2.2.1]
        · rw [h2.2.2.2, ihr.2.2.2]
      · have h1 := step_nonperiodic_vibration s e he hp
        have ihr := ih (step s e).1 (h1.1.trans h) hes'
        refine ⟨ihr.1, ?_, ?_, ?_⟩
        · rw [h1.2.1, ihr.2.1, numTicks_cons_other e es hp]
          simp
        · rw [h1.2.2.1, ihr.2.2.1]
        · rw [h1.2.2.2, ihr.2.2.2]

lemma run_count1 (es : List Event) (s : LoopState)
    (h : s.vibration_count = 1)
    (hes : ∀ e ∈ es, isVibrationEvent e = false) :
    displayVibs (run s es).2
      = (if numTicks es = 0 then [] else 1 :: List.replicate (numTicks es - 1) 0) ∧
    buzzerOnCount (run s es).2 = (if numTicks es = 0 then 0 else 1) ∧
    armBuzzerOffCount (run s es).2 = (if numTicks es = 0 then 0 else 1) := by
  induction es generalizing s with
  | nil =>
      simp [run, displayVibs, buzzerOnCount, armBuzzerOffCount, numTicks]
  | cons e es ih =>
      have he : isVibrationEvent e = false := hes e (List.mem_cons_self e es)
      have hes' : ∀ e' ∈ es, isVibrationEvent e' = false :=
        fun e' h' => hes e' (List.mem_cons_of_mem e h')
      simp only [run, displayVibs_append, buzzerOnCount_append,
        armBuzzerOffCount_append]
      rcases event_shape e with ⟨rT, rL, rfl⟩ | hp
      · have h1 := step_periodic_count1 s rT rL h
        have h2 := run_count2 es (step s (Event.periodic rT rL)).1 h1.1 hes'
        rw [h1.2.1, h1.2.2.1, h1.2.2.2, h2.2.1, h2.2.2.1, h2.2.2.2,
          numTicks_cons_periodic]
        simp
      · have h1 := step_nonperiodic_vibration s e he hp
        have ihr := ih (step s e).1 (h1.1.trans h) hes'
        rw [h1.2.1, h1.2.2.1, h1.2.2.2, ihr.1, ihr.2.1, ihr.2.2,
          numTicks_cons_other e es hp]
        simp

/-- Claim C10: after a vibration rising edge is consumed, the displayed
vibration boolean is 1 on exactly the first subsequent periodic tick and 0 on
every later tick until another vibration edge is consumed; on that first tick
the buzzer pin is driven high exactly once and exactly one 500 ms apagar
one-shot alarm is armed (the callback that drives the pin low again). -/
theorem vibration_one_tick (s : LoopState) (es : List Event)
    (hes : ∀ e ∈ es, isVibrationEvent e = false) :
    displayVibs (run (step s Event.vibration).1 es).2
      = (if numTicks es = 0 then [] else 1 :: List.replicate (numTicks es - 1) 0) ∧
    buzzerOnCount (run (step s Event.vibration).1 es).2
      = (if numTicks es = 0 then 0 else 1) ∧
    armBuzzerOffCount (run (step s Event.vibration).1 es).2
      = (if numTicks es = 0 then 0 else 1) ∧
    apagar_buzzer = [Cmd.buzzer false] := by
  have h := run_count1 es (step s Event.vibration).1 rfl hes
  exact ⟨h.1, h.2.1, h.2.2, rfl⟩

/-- Witness for C10: from the initial state, a vibration edge followed by two
periodic ticks shows the displayed vibration pattern 1 then 0. -/
theorem vibration_one_tick_witness :
    (∀ e ∈ [Event.periodic 24 300, Event.trigger, Event.periodic 25 300],
      isVibrationEvent e = false) ∧
    displayVibs (run (step initState Event.vibration).1
        [Event.periodic 24 300, Event.trigger, Event.periodic 25 300]).2
      = (if numTicks [Event.periodic 24 300, Event.trigger,
            Event.periodic 25 300] = 0
         then []
         else 1 :: List.replicate
            (numTicks [Event.periodic 24 300, Event.trigger,
              Event.periodic 25 300] - 1) 0) :=
  ⟨by decide,
   (vibration_one_tick initState
      [Event.periodic 24 300, Event.trigger, Event.periodic 25 300]
      (by decide)).1⟩

/-! ### The moving-average correctness development (C4) -/

lemma maRun_append_singleton (N : ℕ) (s : MAState) (xs : List ℚ) (v : ℚ) :
    maRun N s (xs ++ [v]) = maPush N (maRun N s xs) v := by
  simp [maRun, List.foldl_append]

lemma set_rotate_succ (l : List ℚ) (p : ℕ) (v : ℚ) (hp : p < l.length) :
    (l.set p v).rotate ((p + 1) % l.length) = (l.rotate p).tail ++ [v] := by
  have hlen : (l.set p v).length = l.length := List.length_set ..
  have htk : (l.take p).length = p := by
    rw [List.length_take]
    exact Nat.min_eq_left (le_of_lt hp)
  have h1 : (l.set p v).rotate ((p + 1) % l.length)
      = (l.set p v).rotate (p + 1) := by
    rw [← hlen, List.rotate_mod]
  rw [h1, List.set_eq_take_cons_drop v hp,
    List.rotate_eq_drop_append_take (by simp; omega),
    List.drop_append_eq_append_drop, List.take_append_eq_append_take,
    htk, List.drop_eq_nil_of_le (by omega),
    List.take_of_length_le (by omega),
    List.rotate_eq_drop_append_take (le_of_lt hp),
    List.drop_eq_getElem_cons hp]
  have h2 : p + 1 - p = 0 + 1 := by omega
  rw [h2, List.drop_succ_cons, List.take_succ_cons, List.drop_zero,
    List.take_zero, List.nil_append, List.cons_append, List.tail_cons,
    List.append_assoc]

lemma maPush_inv_partial (N : ℕ) (xs : List ℚ) (v : ℚ) (s : MAState)
    (hcase : xs.length < N)
    (hc : s.wcount = min xs.length N) (hp : s.wpos = xs.length % N)
    (hl : s.buf.length = N)
    (hbuf : s.buf = xs ++ List.replicate (N - xs.length) (0 : ℚ)) :
    (maPush N s v).wcount = min (xs.length + 1) N ∧
    (maPush N s v).wpos = (xs.length + 1) % N ∧
    (maPush N s v).buf.length = N ∧
    (xs.length + 1 < N →
      (maPush N s v).buf
        = (xs ++ [v]) ++ List.replicate (N - (xs.length + 1)) (0 : ℚ)) ∧
    (N ≤ xs.length + 1 →
      (maPush N s v).buf.rotate ((maPush N s v).wpos)
        = lastWindow N (xs ++ [v])) := by
  have hpos : s.wpos = xs.length := by rw [hp]; exact Nat.mod_eq_of_lt hcase
  have hcnt : s.wcount = xs.length := by
    rw [hc]; exact Nat.min_eq_left (le_of_lt hcase)
  have hset : (maPush N s v).buf = xs ++ v :: List.replicate (N - (xs.length + 1)) 0 := by
    show s.buf.set s.wpos v = _
    have hwhole : s.buf.length = N := hl
    rw [hpos, hbuf, List.set_eq_take_cons_drop v (by simp; omega),
      List.take_left, List.drop_append_eq_append_drop,
      List.drop_eq_nil_of_le (by omega)]
    have hrep : (List.replicate (N - xs.length) (0:ℚ)).drop (xs.length + 1 - xs.length)
        = List.replicate (N - (xs.length + 1)) (0:ℚ) := by
      have h2 : xs.length + 1 - xs.length = 1 := by omega
      have h3 : N - xs.length = (N - (xs.length + 1)) + 1 := by omega
      rw [h2, h3, List.replicate_succ, List.drop_one, List.tail_cons]
    rw [hrep]
    simp
  refine ⟨?_, ?_, ?_, ?_, ?_⟩
  · show (if s.wcount < N then s.wcount + 1 else s.wcount) = _
    rw [hcnt, if_pos hcase]
    omega
  · show (s.wpos + 1) % N = _
    rw [hpos]
  · rw [hset]; simp; omega
  · intro h
    rw [hset]
    simp
  · intro h
    have hNeq : N = xs.length + 1 := by omega
    have hz : N - (xs.length + 1) = 0 := by omega
    have hw : (maPush N s v).wpos = 0 := by
      show (s.wpos + 1) % N = 0
      rw [hpos, hNeq, Nat.mod_self]
    have hd : xs.length + 1 - N = 0 := by omega
    rw [hw, List.rotate_zero, hset, hz]
    simp [lastWindow, hd]

lemma maPush_inv_full (N : ℕ) (hN : 1 ≤ N) (xs : List ℚ) (v : ℚ) (s : MAState)
    (hcase : N ≤ xs.length)
    (hc : s.wcount = min xs.length N) (hp : s.wpos = xs.length % N)
    (hl : s.buf.length = N)
    (hrot : s.buf.rotate s.wpos = lastWindow N xs) :
    (maPush N s v).wcount = min (xs.length + 1) N ∧
    (maPush N s v).wpos = (xs.length + 1) % N ∧
    (maPush N s v).buf.length = N ∧
    (xs.length + 1 < N →
      (maPush N s v).buf
        = (xs ++ [v]) ++ List.replicate (N - (xs.length + 1)) (0 : ℚ)) ∧
    (N ≤ xs.length + 1 →
      (maPush N s v).buf.rotate ((maPush N s v).wpos)
        = lastWindow N (xs ++ [v])) := by
  have hcnt : s.wcount = N := by rw [hc]; exact Nat.min_eq_right hcase
  have hplt : s.wpos < N := by
    rw [hp]; exact Nat.mod_lt _ (by omega)
  refine ⟨?_, ?_, ?_, fun h => absurd h (by omega), fun _ => ?_⟩
  · show (if s.wcount < N then s.wcount + 1 else s.wcount) = _
    rw [hcnt, if_neg (lt_irrefl N)]
    omega
  · show (s.wpos + 1) % N = _
    rw [hp, Nat.mod_add_mod]
  · show (s.buf.set s.wpos v).length = N
    rw [List.length_set, hl]
  · show (s.buf.set s.wpos v).rotate ((s.wpos + 1) % N) = _
    have hmod : (s.wpos + 1) % N = (s.wpos + 1) % s.buf.length := by rw [hl]
    have hrhs : lastWindow N (xs ++ [v])
        = (xs.drop (xs.length - N)).tail ++ [v] := by
      show (xs ++ [v]).drop ((xs ++ [v]).length - N) = _
      have hlen2 : (xs ++ [v]).length = xs.length + 1 := by simp
      rw [hlen2, List.drop_append_eq_append_drop]
      have ha : xs.length + 1 - N - xs.length = 0 := by omega
      rw [ha, List.drop_zero, ← List.drop_one, List.drop_drop]
      have hb : xs.length - N + 1 = xs.length + 1 - N := by omega
      rw [hb]
    rw [hmod, set_rotate_succ s.buf s.wpos v (by rw [hl]; exact hplt), hrot,
      hrhs]
    rfl


lemma maRun_inv (N : ℕ) (hN : 1 ≤ N) (xs : List ℚ) :
    (maRun N (maInit N) xs).wcount = min xs.length N ∧
    (maRun N (maInit N) xs).wpos = xs.length % N ∧
    (maRun N (maInit N) xs).buf.length = N ∧
    (xs.length < N →
      (maRun N (maInit N) xs).buf
        = xs ++ List.replicate (N - xs.length) (0 : ℚ)) ∧
    (N ≤ xs.length →
      (maRun N (maInit N) xs).buf.rotate ((maRun N (maInit N) xs).wpos)
        = lastWindow N xs) := by
  induction xs using List.reverseRecOn with
  | nil =>
      refine ⟨by simp [maRun, maInit], by simp [maRun, maInit],
        by simp [maRun, maInit], by simp [maRun, maInit], fun hcon => ?_⟩
      exact absurd hcon (by simp; omega)
  | append_singleton xs v ih =>
      obtain ⟨ihc, ihp, ihl, ihpart, ihfull⟩ := ih
      simp only [maRun_append_singleton, List.length_append,
        List.length_singleton]
      by_cases hcase : xs.length < N
      · exact maPush_inv_partial N xs v (maRun N (maInit N) xs) hcase
          ihc ihp ihl (ihpart hcase)
      · exact maPush_inv_full N hN xs v (maRun N (maInit N) xs)
          (Nat.le_of_not_lt hcase) ihc ihp ihl
          (ihfull (Nat.le_of_not_lt hcase))

/-- Claim C4: for every window capacity N ≥ 1 and every non-empty sequence of
pushed values, the average the filter returns after the last push is the
arithmetic mean of the last min(length, N) pushed values; before the window
fills it is the mean over exactly the values pushed so far (lastWindow is then
the whole sequence). -/
theorem moving_average_spec (N : ℕ) (hN : 1 ≤ N) (xs : List ℚ)
    (hxs : xs ≠ []) :
    maAvg (maRun N (maInit N) xs)
      = (lastWindow N xs).sum / ((min xs.length N : ℕ) : ℚ) := by
  obtain ⟨hc, hp, hl, hpart, hfull⟩ := maRun_inv N hN xs
  have hsum : maSum (maRun N (maInit N) xs) = (lastWindow N xs).sum := by
    rw [maSum, hc]
    by_cases hcase : xs.length < N
    · have hmin : min xs.length N = xs.length := Nat.min_eq_left (le_of_lt hcase)
      rw [hpart hcase, hmin, List.take_left]
      show xs.sum = (xs.drop (xs.length - N)).sum
      rw [Nat.sub_eq_zero_of_le (le_of_lt hcase), List.drop_zero]
    · push_neg at hcase
      have hmin : min xs.length N = N := Nat.min_eq_right hcase
      rw [hmin, List.take_of_length_le (le_of_eq hl)]
      calc (maRun N (maInit N) xs).buf.sum
          = ((maRun N (maInit N) xs).buf.rotate
              ((maRun N (maInit N) xs).wpos)).sum :=
            (((maRun N (maInit N) xs).buf.rotate_perm
              ((maRun N (maInit N) xs).wpos)).sum_eq).symm
        _ = (lastWindow N xs).sum := by rw [hfull hcase]
  rw [maAvg, hsum, hc]

/-- Witness for C4: capacity 2 with pushes 1, 2, 3; the average is over the
last two values. -/
theorem moving_average_spec_witness :
    ((1:ℕ) ≤ 2 ∧ ([(1:ℚ), 2, 3] ≠ [])) ∧
    maAvg (maRun 2 (maInit 2) [(1:ℚ), 2, 3])
      = (lastWindow 2 [(1:ℚ), 2, 3]).sum
          / ((min (List.length [(1:ℚ), 2, 3]) 2 : ℕ) : ℚ) :=
  ⟨⟨by norm_num, by simp⟩,
   moving_average_spec 2 (by norm_num) [(1:ℚ), 2, 3] (by simp)⟩

end Piscitec
